import Mathlib

/-!
Verification development for the repository's two rule-driven engines:
the error decision engine (src/src/error_decision_engine.py), the action
dispatcher of the agent (src/src/agent.py), and the data-curation rules
engine (src/src/rules_engine.py).

The Python code is shallowly embedded: dictionaries become association
lists over a `Val` type of Python values, exceptions become `Except PyErr`,
and pandas DataFrames become a `Table` of named columns and rows of cells.
Wall-clock timestamps are not modelled (the `timestamp` field of a decision
is dropped); everything else follows the source line by line.
-/

namespace Spec2Proof

/-- Boolean test that `n` is a prefix of `h` (character lists). -/
def charsPrefixOf : List Char → List Char → Bool
  | [], _ => true
  | _ :: _, [] => false
  | a :: as, b :: bs => a == b && charsPrefixOf as bs

/-- Boolean test that `n` occurs as a contiguous substring of `h`
(character lists); this models Python's `needle in hay` on strings. -/
def charsSub (n : List Char) : List Char → Bool
  | [] => n.isEmpty
  | b :: t => charsPrefixOf n (b :: t) || charsSub n t

/-- Python's `needle in hay` substring test on strings. -/
def strIn (needle hay : String) : Bool :=
  charsSub needle.toList hay.toList

/-- Python `s.lower()` (ASCII, which covers this repository's data). -/
def pyLower (s : String) : String := ⟨s.data.map Char.toLower⟩

/-- Python `s.upper()` (ASCII). -/
def pyUpper (s : String) : String := ⟨s.data.map Char.toUpper⟩

/-- Python `s.strip()`. -/
def pyStrip (s : String) : String :=
  ⟨((s.data.dropWhile Char.isWhitespace).reverse.dropWhile Char.isWhitespace).reverse⟩

/-- Python `s.endswith(pat)`: `pat` is a suffix of `s`. -/
def strEnds (s pat : String) : Bool :=
  charsPrefixOf pat.data.reverse s.data.reverse

/-- A raised Python exception, identified by its class name and message. -/
structure PyErr where
  kind : String
  msg : String
deriving DecidableEq, Repr

/-- Model of the Python values that flow through the decision engine and
agent dictionaries: strings, ints, bools, lists, dicts and `None`. -/
inductive Val where
  | str (s : String)
  | int (n : Int)
  | bool (b : Bool)
  | list (xs : List Val)
  | dict (kvs : List (String × Val))
  | none

/-- Python truthiness of a `Val`. -/
def truthy : Val → Bool
  | .str s => !(s == "")
  | .int n => !(n == 0)
  | .bool b => b
  | .list xs => !xs.isEmpty
  | .dict kvs => !kvs.isEmpty
  | .none => false

/-- `d[k]` lookup in an association-list dictionary (first binding wins,
as keys of a Python dict are unique). -/
def lookup (k : String) (d : List (String × Val)) : Option Val :=
  (d.find? (fun kv => kv.1 == k)).map (fun kv => kv.2)

/-- Python `d.get(k, default)`: the stored value when the key is present
(even if that value is falsy), otherwise the default. -/
def getD (k : String) (d : List (String × Val)) (default : Val) : Val :=
  (lookup k d).getD default

/-- The `DecisionAction` enum of `error_decision_engine.py`. -/
inductive DecisionAction where
  | RETRY
  | RETRY_WITH_NEW_PARAMS
  | SEND_EMAIL
  | ESCALATE
  | IGNORE
deriving DecidableEq, Repr

/-- Name lookup `DecisionAction[s]` on the enum: the five member names,
or a `KeyError` (modelled as `Option.none`) for any other string. -/
def parseAction (s : String) : Option DecisionAction :=
  if s = "RETRY" then some .RETRY
  else if s = "RETRY_WITH_NEW_PARAMS" then some .RETRY_WITH_NEW_PARAMS
  else if s = "SEND_EMAIL" then some .SEND_EMAIL
  else if s = "ESCALATE" then some .ESCALATE
  else if s = "IGNORE" then some .IGNORE
  else none

/-- Result of `_analyze_error_pattern` (the four-key dict it returns). -/
structure PatternMatch where
  error_type : String
  action : DecisionAction
  priority : String
  matched_keyword : Option String
deriving DecidableEq, Repr

/-- The `self.error_patterns` table of `ErrorDecisionEngine.__init__`,
in source-declaration (insertion) order: category name, keyword list,
action, priority. -/
def errorPatterns : List (String × List String × DecisionAction × String) :=
  [ ("timeout", (["timeout", "timed out", "deadline exceeded"],
      (DecisionAction.RETRY, "medium"))),
    ("resource", (["out of memory", "disk space", "resource exhausted",
      "insufficient resources"],
      (DecisionAction.RETRY_WITH_NEW_PARAMS, "high"))),
    ("permission", (["permission denied", "access denied", "unauthorized",
      "forbidden"],
      (DecisionAction.SEND_EMAIL, "critical"))),
    ("syntax", (["syntax error", "invalid", "parse error",
      "compilation failed"],
      (DecisionAction.SEND_EMAIL, "critical"))),
    ("network", (["connection refused", "network error", "timeout",
      "connection reset"],
      (DecisionAction.RETRY, "high"))),
    ("data", (["no such file", "file not found", "not found",
      "does not exist"],
      (DecisionAction.SEND_EMAIL, "critical"))) ]

/-- The two nested loops of `_analyze_error_pattern`: scan the pattern
table in order, return on the first keyword that is a substring of the
lowered message. -/
def analyzeGo (low : String) :
    List (String × List String × DecisionAction × String) → PatternMatch
  | [] => ⟨"unknown", .SEND_EMAIL, "medium", Option.none⟩
  | p :: rest =>
    match p.2.1.find? (fun k => strIn k low) with
    | some k => ⟨p.1, p.2.2.1, p.2.2.2, some k⟩
    | Option.none => analyzeGo low rest

/-- `ErrorDecisionEngine._analyze_error_pattern` (also exposed as the
classifier `classify` in the spec). -/
def analyzeErrorPattern (error_message : String) : PatternMatch :=
  analyzeGo (pyLower error_message) errorPatterns

/-- Whether a pattern-table entry matches a lowered message: some keyword
of the entry is a substring of it. -/
def catMatches (low : String)
    (p : String × List String × DecisionAction × String) : Bool :=
  p.2.1.any (fun k => strIn k low)

/-- The decision dict built by the engine.  The wall-clock `timestamp`
key is not modelled; all other keys are fields. -/
structure Decision where
  action : DecisionAction
  error_category : Val
  root_cause : Val
  reason : Val
  priority : String
  suggested_params : Val
  recipient_team : Val
  attempt_number : Val

/-- `ErrorDecisionEngine._combine_analyses`.  Evaluation order follows the
source: the recommendation is examined first (a truthy non-string raises
`AttributeError` at `.upper()`, which the `except (KeyError, ValueError)`
clause does not catch), then the severity (a present non-string raises
`AttributeError` at `.lower()`). -/
def combineAnalyses (pattern_result : PatternMatch)
    (llm_analysis : List (String × Val)) : Except PyErr Decision :=
  let recVal := (lookup "recommendation" llm_analysis).getD .none
  let actionE : Except PyErr DecisionAction :=
    if truthy recVal then
      match recVal with
      | .str s => .ok ((parseAction (pyUpper s)).getD pattern_result.action)
      | _ => .error ⟨"AttributeError", "object has no attribute upper"⟩
    else .ok pattern_result.action
  match actionE with
  | .error e => .error e
  | .ok action =>
    let sev := getD "severity" llm_analysis (.str pattern_result.priority)
    match sev with
    | .str s =>
      .ok { action := action,
            error_category :=
              getD "error_category" llm_analysis (.str pattern_result.error_type),
            root_cause := getD "root_cause" llm_analysis (.str "Unknown"),
            reason := getD "reason" llm_analysis
              (.str (match pattern_result.matched_keyword with
                     | some k => if k = "" then "Pattern matched" else k
                     | Option.none => "Pattern matched")),
            priority := pyLower s,
            suggested_params := (lookup "suggested_params" llm_analysis).getD .none,
            recipient_team := getD "recipient_team" llm_analysis (.str "DevOps"),
            attempt_number := .none }
    | _ => .error ⟨"AttributeError", "object has no attribute lower"⟩

/-- `ErrorDecisionEngine._build_decision`.  Note that the pattern dict
always carries the `matched_keyword` key, so `.get("matched_keyword",
"Unknown error pattern")` returns the stored value (possibly `None`). -/
def buildDecision (pattern_result : PatternMatch) : Decision :=
  { action := pattern_result.action,
    error_category := .str pattern_result.error_type,
    root_cause := match pattern_result.matched_keyword with
                  | some k => .str k
                  | Option.none => .none,
    reason := .str ("Matched pattern: " ++
      (match pattern_result.matched_keyword with
       | some k => k
       | Option.none => "None")),
    priority := pattern_result.priority,
    suggested_params := .none,
    recipient_team := .str "DevOps",
    attempt_number := .none }

/-- Python `attempt_number >= self.max_retries` where the left operand is
an arbitrary dict value: ints and bools compare, anything else raises
`TypeError`. -/
def valGeNat (v : Val) (m : Nat) : Except PyErr Bool :=
  match v with
  | .int n => .ok (decide ((m : Int) ≤ n))
  | .bool b => .ok (decide ((m : Int) ≤ (if b then 1 else 0)))
  | _ => .error ⟨"TypeError", "unsupported comparison"⟩

/-- `ErrorDecisionEngine.make_decision` for an engine constructed with
`max_retries = maxR`.  `llm_analysis = some a` with `a` empty is falsy in
Python, so it takes the pattern-only branch, like `none`. -/
def makeDecision (maxR : Nat) (error_message : String)
    (job_context : List (String × Val))
    (llm_analysis : Option (List (String × Val))) : Except PyErr Decision :=
  let pattern_result := analyzeErrorPattern error_message
  let base : Except PyErr Decision :=
    match llm_analysis with
    | some a =>
      if a.isEmpty then .ok (buildDecision pattern_result)
      else combineAnalyses pattern_result a
    | Option.none => .ok (buildDecision pattern_result)
  match base with
  | .error e => .error e
  | .ok d0 =>
    let att := (lookup "attempt_number" job_context).getD (.int 1)
    match valGeNat att maxR with
    | .error e => .error e
    | .ok ge =>
      let d1 :=
        if ge && (d0.action == DecisionAction.RETRY
            || d0.action == DecisionAction.RETRY_WITH_NEW_PARAMS) then
          { d0 with action := .SEND_EMAIL,
                    reason := .str ("Max retries (" ++ toString maxR ++ ") exceeded") }
        else d0
      .ok { d1 with attempt_number := att }

/-- Outcomes of the agent's collaborator calls (`agent.py`).  Each call is
modelled by what it does when invoked during one dispatch: either return a
value or raise.  `submitRun` may depend on the parameters it is given. -/
structure Collab where
  cancelRun : Except PyErr Val
  submitRun : Val → Except PyErr (List (String × Val))
  extractParams : Except PyErr Val
  generateEmail : Except PyErr (List (String × Val))
  sendNotification : Except PyErr Bool

/-- Python `str(e)` on an exception: its message. -/
def errStr (e : PyErr) : Val := .str e.msg

/-- `DatabricksAIAgent._retry_job`: cancel, resubmit with the context's
parameters; every exception inside the `try` becomes `retry_error`. -/
def retryJob (c : Collab) (ctxParams : Val) : List (String × Val) :=
  match c.cancelRun with
  | .error e => [("status", .str "retry_error"), ("error", errStr e)]
  | .ok _ =>
    match c.submitRun ctxParams with
    | .error e => [("status", .str "retry_error"), ("error", errStr e)]
    | .ok res =>
      match lookup "run_id" res with
      | some v => [("status", .str "retry_submitted"), ("new_run_id", v)]
      | Option.none =>
        [("status", .str "retry_failed"), ("error", getD "error" res .none)]

/-- `DatabricksAIAgent._retry_job_with_params`. -/
def retryJobWithParams (c : Collab) (newParams : Val) : List (String × Val) :=
  match c.cancelRun with
  | .error e => [("status", .str "retry_error"), ("error", errStr e)]
  | .ok _ =>
    match c.submitRun newParams with
    | .error e => [("status", .str "retry_error"), ("error", errStr e)]
    | .ok res =>
      match lookup "run_id" res with
      | some v => [("status", .str "retry_with_params_submitted"),
                   ("new_run_id", v), ("new_parameters", newParams)]
      | Option.none =>
        [("status", .str "retry_failed"), ("error", getD "error" res .none)]

/-- `DatabricksAIAgent._send_error_notification`: draft the email, then
send; an exception from either collaborator becomes `notification_error`,
and a `False` send result becomes `notification_failed`. -/
def sendErrorNotification (c : Collab) (d : Decision) : List (String × Val) :=
  match c.generateEmail with
  | .error e => [("status", .str "notification_error"), ("error", errStr e)]
  | .ok content =>
    match c.sendNotification with
    | .error e => [("status", .str "notification_error"), ("error", errStr e)]
    | .ok sent =>
      [("status", .str (if sent then "notification_sent" else "notification_failed")),
       ("email_subject", getD "subject" content .none),
       ("recipients", .list [.str "admin@example.com"])]

/-- `DatabricksAIAgent._escalate_issue`: no collaborator call, always a
structured `escalated` marker. -/
def escalateIssue (d : Decision) (jobId runId : Int) : List (String × Val) :=
  [("status", .str "escalated"),
   ("job_id", .int jobId),
   ("run_id", .int runId),
   ("error_category", d.error_category),
   ("priority", .str d.priority),
   ("requires_manual_review", .bool true)]

/-- `DatabricksAIAgent._execute_action`.  Mirrors the source exactly: in
the `RETRY_WITH_NEW_PARAMS` branch, `decision.get("suggested_params") or
self.llm_client.extract_parameters_for_retry(decision)` is evaluated
before the guarded helper, so an exception from the extraction call is
not caught and propagates (`Except.error`). -/
def executeAction (c : Collab) (d : Decision) (jobId runId : Int)
    (job_context : List (String × Val)) : Except PyErr (List (String × Val)) :=
  match d.action with
  | .RETRY => .ok (retryJob c (getD "parameters" job_context .none))
  | .RETRY_WITH_NEW_PARAMS =>
    if truthy d.suggested_params then .ok (retryJobWithParams c d.suggested_params)
    else
      match c.extractParams with
      | .error e => .error e
      | .ok p => .ok (retryJobWithParams c p)
  | .SEND_EMAIL => .ok (sendErrorNotification c d)
  | .ESCALATE => .ok (escalateIssue d jobId runId)
  | .IGNORE => .ok [("status", .str "unknown_action")]

/-- Whether some collaborator call made during the dispatched branch
raises, following the call order of each branch (a later call is only
reached when the earlier ones succeed). -/
def branchRaised (c : Collab) (d : Decision)
    (job_context : List (String × Val)) : Bool :=
  match d.action with
  | .RETRY =>
    match c.cancelRun with
    | .error _ => true
    | .ok _ =>
      match c.submitRun (getD "parameters" job_context .none) with
      | .error _ => true
      | .ok _ => false
  | .RETRY_WITH_NEW_PARAMS =>
    let afterParams (p : Val) : Bool :=
      match c.cancelRun with
      | .error _ => true
      | .ok _ =>
        match c.submitRun p with
        | .error _ => true
        | .ok _ => false
    if truthy d.suggested_params then afterParams d.suggested_params
    else
      match c.extractParams with
      | .error _ => true
      | .ok p => afterParams p
  | .SEND_EMAIL =>
    match c.generateEmail with
    | .error _ => true
    | .ok _ =>
      match c.sendNotification with
      | .error _ => true
      | .ok _ => false
  | .ESCALATE => false
  | .IGNORE => false

/-- A cell of a pandas DataFrame as used by this repository's rules:
strings, ints, or a missing value. -/
inductive Cell where
  | str (s : String)
  | int (n : Int)
  | none
deriving DecidableEq, Repr

/-- A pandas DataFrame: named columns, and rows of cells aligned with the
column list.  The integer index is not modelled: `reset_index(drop=True)`
is the identity here, and row order carries the survivor order. -/
structure Table where
  cols : List String
  rows : List (List Cell)
deriving DecidableEq, Repr

/-- Comparison operator of a filter condition. -/
inductive CmpOp where
  | gt
  | lt
  | ge
  | le
  | eq
  | ne
deriving DecidableEq, Repr

/-- A filter condition string, evaluated by the source as
`eval(f"data.{condition}")`.  The full Python expression language behind
`eval` is not embeddable, so two representative forms are modelled:
`cmp` is the column-versus-literal boolean predicate the spec describes
(`id > 2`; §4.4 and the predicate-AST design note), and `popCheck` is a
side-effecting expression such as `pop('id') is not None`, which
mutates the DataFrame in place (dropping the column) before the
subsequent indexing raises — exhibiting that `eval` can change the
table even though the exception is caught. -/
inductive Cond where
  | cmp (col : String) (op : CmpOp) (lit : Cell)
  | popCheck (col : String)
deriving DecidableEq, Repr

/-- One `{column, operation}` pair of a transform rule. -/
structure Transform where
  column : Option String
  operation : Option String
deriving DecidableEq, Repr

/-- One `{column, type}` pair of a validate rule. -/
structure TCheck where
  column : Option String
  ctype : Option String
deriving DecidableEq, Repr

/-- A rule dict.  `rtype` is `rule.get('type')`; a missing or falsy
`condition` is `Option.none`; `subset` covers `rule.get('subset')` being
a list (a non-list or absent subset is `Option.none`, matching the
`if subset and isinstance(subset, list)` guard together with the empty
list); `keep` is `rule.get('keep', 'first')` with `Option.none` for the
absent key. -/
structure Rule where
  rtype : Option String
  condition : Option Cond
  transforms : List Transform
  checks : List TCheck
  subset : Option (List String)
  keep : Option String
deriving DecidableEq, Repr

/-- Integer comparison of a condition. -/
def cmpInt (x : Int) (op : CmpOp) (y : Int) : Bool :=
  match op with
  | .gt => decide (y < x)
  | .lt => decide (x < y)
  | .ge => decide (y ≤ x)
  | .le => decide (x ≤ y)
  | .eq => x == y
  | .ne => !(x == y)

/-- String comparison of a condition (Python/pandas compare object-dtype
strings lexicographically). -/
def cmpStr (x : String) (op : CmpOp) (y : String) : Bool :=
  match op with
  | .gt => compare x y == Ordering.gt
  | .lt => compare x y == Ordering.lt
  | .ge => !(compare x y == Ordering.lt)
  | .le => !(compare x y == Ordering.gt)
  | .eq => x == y
  | .ne => !(x == y)

/-- Comparing one cell against the condition literal: int with int and
string with string compare; any other pairing raises `TypeError`, as the
comparison of mismatched object-dtype operands does. -/
def cmpCell (a : Cell) (op : CmpOp) (b : Cell) : Except PyErr Bool :=
  match a, b with
  | .int x, .int y => .ok (cmpInt x op y)
  | .str x, .str y => .ok (cmpStr x op y)
  | _, _ => .error ⟨"TypeError", "unsupported operand types"⟩

/-- The predicate of a `cmp` condition on one row. -/
def rowEval (col : String) (op : CmpOp) (lit : Cell) (cols : List String)
    (row : List Cell) : Except PyErr Bool :=
  match cols.findIdx? (fun s => s == col) with
  | some i => cmpCell ((row.get? i).getD .none) op lit
  | Option.none => .error ⟨"AttributeError", "no attribute"⟩

/-- Evaluate a fallible function over a list, stopping at the first
raised exception. -/
def mapExcept (f : α → Except PyErr β) : List α → Except PyErr (List β)
  | [] => .ok []
  | a :: as =>
    match f a with
    | .error e => .error e
    | .ok b =>
      match mapExcept f as with
      | .error e => .error e
      | .ok bs => .ok (b :: bs)

/-- `data.pop(col)`: remove the column and its cells in place. -/
def dropCol (t : Table) (col : String) : Table :=
  let i := t.cols.findIdx (fun s => s == col)
  ⟨t.cols.eraseIdx i, t.rows.map (fun row => row.eraseIdx i)⟩

/-- `mask = eval(f"data.{condition}")` followed by the `data[mask]`
indexing check: yields the table as left by the evaluation (mutated by
a side-effecting expression) together with the boolean mask or the
raised exception.  A `cmp` predicate leaves the table untouched;
attribute access on a missing column raises `AttributeError`.  A
`popCheck` expression drops the column in place and evaluates to the
scalar `True`, on which `data[True]` raises `KeyError`; popping a
missing column raises `KeyError` without mutating. -/
def evalCondM (c : Cond) (t : Table) : Table × Except PyErr (List Bool) :=
  match c with
  | .cmp col op lit =>
    (t, if t.cols.contains col then mapExcept (rowEval col op lit t.cols) t.rows
        else .error ⟨"AttributeError", "no attribute"⟩)
  | .popCheck col =>
    if t.cols.contains col then (dropCol t col, .error ⟨"KeyError", "True"⟩)
    else (t, .error ⟨"KeyError", col⟩)

/-- `data[mask]` on a boolean mask: keep the rows marked `true`. -/
def maskSelect : List (List Cell) → List Bool → List (List Cell)
  | r :: rs, b :: bs => if b then r :: maskSelect rs bs else maskSelect rs bs
  | _, _ => []

/-- `RulesEngine.apply_filter`: missing/falsy condition is a warned
no-op; an exception during evaluation or indexing is caught and the
step returns `data` — which is whatever the evaluation left in place,
mutated if the condition had side effects; otherwise the masked rows
(index reset is identity in this model). -/
def applyFilter (t : Table) (r : Rule) : Table :=
  match r.condition with
  | Option.none => t
  | some c =>
    match evalCondM c t with
    | (t1, .error _) => t1
    | (t1, .ok mask) => { t1 with rows := maskSelect t1.rows mask }

/-- Whether a condition is a pure predicate expression (the spec's
filter sub-language), as opposed to a side-effecting expression. -/
def condPure : Option Cond → Bool
  | some (Cond.popCheck _) => false
  | _ => true

/-- Whether a rule's filter condition, if the rule is a filter rule, is
a pure predicate expression. -/
def ruleFilterPure (r : Rule) : Bool :=
  if r.rtype == some "filter" then condPure r.condition else true

/-- The elementwise effect of a `.str` transform on one cell: strings are
transformed, any non-string entry becomes missing (the `.str` accessor
yields NaN off strings). -/
def applyCellOp (op : String) : Cell → Cell
  | .str s =>
    .str (if op = "lowercase" then pyLower s
          else if op = "uppercase" then pyUpper s
          else pyStrip s)
  | _ => .none

/-- Overwrite column `i` of every row with the transformed value. -/
def setColOp (rows : List (List Cell)) (i : Nat) (op : String) :
    List (List Cell) :=
  rows.map (fun row => row.set i (applyCellOp op ((row.get? i).getD .none)))

/-- The loop body of `RulesEngine.apply_transform`: skip a missing or
unknown column, apply a known operation, warn and skip an unknown one. -/
def transGo (t : Table) : List Transform → Table
  | [] => t
  | tr :: rest =>
    let t1 :=
      match tr.column with
      | Option.none => t
      | some col =>
        if t.cols.contains col then
          match tr.operation with
          | some op =>
            if op = "lowercase" || op = "uppercase" || op = "strip" then
              { t with rows := setColOp t.rows (t.cols.findIdx (fun s => s == col)) op }
            else t
          | Option.none => t
        else t
    transGo t1 rest

/-- `RulesEngine.apply_transform`. -/
def applyTransform (t : Table) (r : Rule) : Table :=
  transGo t r.transforms

/-- `RulesEngine.apply_validation`: logs counts only, returns the data
unchanged. -/
def applyValidation (t : Table) (r : Rule) : Table := t

/-- The projection of a row to a subset of columns, used as the
deduplication key. -/
def rowKey (cols subset : List String) (row : List Cell) : List Cell :=
  subset.map (fun cname =>
    (row.get? (cols.findIdx (fun s => s == cname))).getD .none)

/-- `drop_duplicates(keep='first')` on a key function: keep each row
whose key has not been seen before, preserving order. -/
def dedupFirstAux (key : List Cell → List Cell) (seen : List (List Cell)) :
    List (List Cell) → List (List Cell)
  | [] => []
  | r :: rs =>
    if seen.contains (key r) then dedupFirstAux key seen rs
    else r :: dedupFirstAux key (key r :: seen) rs

/-- `RulesEngine.apply_deduplication`: subset columns must exist
(`KeyError` otherwise), `keep` must be `first` or `last` (`ValueError`
otherwise); survivors keep their order, index reset is identity. -/
def applyDeduplication (t : Table) (r : Rule) : Except PyErr Table :=
  let keep := r.keep.getD "first"
  let key : List Cell → List Cell :=
    match r.subset with
    | some l => if l.isEmpty then id else rowKey t.cols l
    | Option.none => id
  let subsetOk : Bool :=
    match r.subset with
    | some l => l.all (fun cname => t.cols.contains cname)
    | Option.none => true
  if !subsetOk then .error ⟨"KeyError", "subset column not found"⟩
  else if keep = "first" then
    .ok { t with rows := dedupFirstAux key [] t.rows }
  else if keep = "last" then
    .ok { t with rows := (dedupFirstAux key [] t.rows.reverse).reverse }
  else .error ⟨"ValueError", "keep must be either first or last"⟩

/-- One iteration of the `apply_rules` loop: dispatch on
`rule.get('type')` through `RULE_HANDLERS`, skipping unknown types. -/
def applyRule (t : Table) (r : Rule) : Except PyErr Table :=
  match r.rtype with
  | some rt =>
    if rt = "filter" then .ok (applyFilter t r)
    else if rt = "transform" then .ok (applyTransform t r)
    else if rt = "validate" then .ok (applyValidation t r)
    else if rt = "deduplicate" then applyDeduplication t r
    else .ok t
  | Option.none => .ok t

/-- `RulesEngine.apply_rules` on a given rule list (the engine stores the
list at construction; `data.copy()` is the identity in value
semantics). -/
def applyRules (rules : List Rule) (t : Table) : Except PyErr Table :=
  match rules with
  | [] => .ok t
  | r :: rs =>
    match applyRule t r with
    | .error e => .error e
    | .ok t1 => applyRules rs t1

/-- Whether a rule-type string is one of the four `RULE_HANDLERS` keys. -/
def isHandledType : Option String → Bool
  | some rt => rt = "filter" || rt = "transform" || rt = "validate"
      || rt = "deduplicate"
  | Option.none => false

/-- The spec-side predicate of a filter rule on one row: the condition
evaluates to `true` there. -/
def rowKeeps (col : String) (op : CmpOp) (lit : Cell) (cols : List String)
    (row : List Cell) : Bool :=
  match rowEval col op lit cols row with
  | .ok true => true
  | _ => false

/-- Splitting lemma used by C6, stated directly on the recursion. -/
theorem applyRules_append (p s : List Rule) :
    ∀ t : Table, applyRules (p ++ s) t =
      match applyRules p t with
      | .error e => .error e
      | .ok t1 => applyRules s t1 := by
  induction p with
  | nil => intro t; rfl
  | cons r rs ih =>
    intro t
    show (match applyRule t r with
          | Except.error e => Except.error e
          | Except.ok t1 => applyRules (rs ++ s) t1) = _
    cases hr : applyRule t r with
    | error e => simp [applyRules, hr]
    | ok t1 => simpa [applyRules, hr] using ih t1

/-- C6: for every table and every rule list split into a prefix and a
suffix, applying `apply_rules` with the prefix and then `apply_rules`
with the suffix on the result yields the same table as applying
`apply_rules` once with the whole list. -/
theorem apply_rules_split_c6 (p s : List Rule) (t t1 : Table)
    (h : applyRules p t = .ok t1) :
    applyRules (p ++ s) t = applyRules s t1 := by
  rw [applyRules_append, h]

/-- Witness for C6 at a concrete table and rule split: a filter prefix
followed by a deduplicate suffix. -/
theorem apply_rules_split_c6_witness :
    applyRules [Rule.mk (some "filter") (some (Cond.cmp "id" CmpOp.gt (Cell.int 2))) [] [] Option.none Option.none]
      ⟨["id"], [[.int 1], [.int 2], [.int 3], [.int 4], [.int 5], [.int 4]]⟩
      = Except.ok ⟨["id"], [[.int 3], [.int 4], [.int 5], [.int 4]]⟩ ∧
    applyRules ([Rule.mk (some "filter") (some (Cond.cmp "id" CmpOp.gt (Cell.int 2))) [] [] Option.none Option.none] ++
        [Rule.mk (some "deduplicate") Option.none [] [] Option.none Option.none])
      ⟨["id"], [[.int 1], [.int 2], [.int 3], [.int 4], [.int 5], [.int 4]]⟩
      = applyRules [Rule.mk (some "deduplicate") Option.none [] [] Option.none Option.none]
          ⟨["id"], [[.int 3], [.int 4], [.int 5], [.int 4]]⟩ :=
  ⟨rfl, apply_rules_split_c6 _ _ _ _ rfl⟩

/-- A rule whose type is not one of the four handler keys leaves the
table unchanged and raises nothing. -/
theorem applyRule_unknown (t : Table) (r : Rule)
    (h : isHandledType r.rtype = false) : applyRule t r = .ok t := by
  cases hrt : r.rtype with
  | none => simp [applyRule, hrt]
  | some rt =>
    rw [hrt] at h
    simp only [isHandledType, Bool.or_eq_false_iff, decide_eq_false_iff_not] at h
    obtain ⟨⟨⟨h1, h2⟩, h3⟩, h4⟩ := h
    simp [applyRule, hrt, h1, h2, h3, h4]

/-- C7: a rule whose type is not one of filter, transform, validate,
deduplicate leaves the table unchanged for that step, does not raise,
and the remaining rules of the list are still applied. -/
theorem unknown_rule_skip_c7 (t : Table) (pre post : List Rule) (r : Rule)
    (h : isHandledType r.rtype = false) :
    applyRule t r = .ok t ∧
      applyRules (pre ++ r :: post) t = applyRules (pre ++ post) t := by
  refine ⟨applyRule_unknown t r h, ?_⟩
  induction pre generalizing t with
  | nil =>
    show (match applyRule t r with
          | Except.error e => Except.error e
          | Except.ok t1 => applyRules post t1) = _
    rw [applyRule_unknown t r h]
    rfl
  | cons q qs ih =>
    show (match applyRule t q with
          | Except.error e => Except.error e
          | Except.ok t1 => applyRules (qs ++ r :: post) t1) = _
    cases hq : applyRule t q with
    | error e => simp [applyRules, hq]
    | ok t1 => simpa [applyRules, hq] using ih t1

/-- Witness for C7: an unknown `frobnicate` rule between a concrete
table and a deduplicate rule. -/
theorem unknown_rule_skip_c7_witness :
    isHandledType (some "frobnicate") = false ∧
    applyRule ⟨["id"], [[.int 1], [.int 1]]⟩
      (Rule.mk (some "frobnicate") Option.none [] [] Option.none Option.none)
      = Except.ok ⟨["id"], [[.int 1], [.int 1]]⟩ ∧
    applyRules ([] ++ (Rule.mk (some "frobnicate") Option.none [] [] Option.none Option.none) ::
        [Rule.mk (some "deduplicate") Option.none [] [] Option.none Option.none])
      ⟨["id"], [[.int 1], [.int 1]]⟩
      = applyRules ([] ++ [Rule.mk (some "deduplicate") Option.none [] [] Option.none Option.none])
        ⟨["id"], [[.int 1], [.int 1]]⟩ :=
  ⟨by decide,
   (unknown_rule_skip_c7 _ []
     [Rule.mk (some "deduplicate") Option.none [] [] Option.none Option.none] _ (by decide)).1,
   (unknown_rule_skip_c7 _ []
     [Rule.mk (some "deduplicate") Option.none [] [] Option.none Option.none] _ (by decide)).2⟩

/-- `apply_filter` never touches the column list when its condition is
a pure predicate expression. -/
theorem applyFilter_cols (t : Table) (r : Rule)
    (hp : condPure r.condition = true) :
    (applyFilter t r).cols = t.cols := by
  cases hc : r.condition with
  | none => simp [applyFilter, hc]
  | some c =>
    cases c with
    | cmp col op lit =>
      simp only [applyFilter, hc, evalCondM]
      split
      all_goals rename_i t1 x heq
      all_goals injection heq with h1 h2
      all_goals rw [← h1]
    | popCheck col =>
      rw [hc] at hp
      exact absurd hp (by simp [condPure])

/-- The transform loop never touches the column list. -/
theorem transGo_cols (trs : List Transform) :
    ∀ t : Table, (transGo t trs).cols = t.cols := by
  induction trs with
  | nil => intro t; rfl
  | cons tr rest ih =>
    intro t
    simp only [transGo]
    rw [ih]
    split
    · rfl
    · split
      · split
        · split
          · rfl
          · rfl
        · rfl
      · rfl

/-- `apply_deduplication` never touches the column list when it
returns. -/
theorem applyDeduplication_cols (t : Table) (r : Rule) (t1 : Table)
    (h : applyDeduplication t r = .ok t1) : t1.cols = t.cols := by
  simp only [applyDeduplication] at h
  split at h
  · exact absurd h (by simp)
  · split at h
    · cases h with
      | refl => rfl
    · split at h
      · cases h with
        | refl => rfl
      · exact absurd h (by simp)

/-- One step of the rule loop never touches the column list when it
returns, provided a filter rule carries a pure predicate condition. -/
theorem applyRule_cols (t : Table) (r : Rule) (t1 : Table)
    (hp : ruleFilterPure r = true)
    (h : applyRule t r = .ok t1) : t1.cols = t.cols := by
  cases hrt : r.rtype with
  | none =>
    simp only [applyRule, hrt] at h
    cases h with
    | refl => rfl
  | some rt =>
    simp only [applyRule, hrt] at h
    by_cases hf : rt = "filter"
    · rw [if_pos hf] at h
      cases h with
      | refl =>
        apply applyFilter_cols
        have heq : ruleFilterPure r = condPure r.condition := by
          simp [ruleFilterPure, hrt, hf]
        rw [heq] at hp
        exact hp
    · rw [if_neg hf] at h
      by_cases htr : rt = "transform"
      · rw [if_pos htr] at h
        cases h with
        | refl => exact transGo_cols r.transforms t
      · rw [if_neg htr] at h
        by_cases hv : rt = "validate"
        · rw [if_pos hv] at h
          cases h with
          | refl => rfl
        · rw [if_neg hv] at h
          by_cases hd : rt = "deduplicate"
          · rw [if_pos hd] at h
            exact applyDeduplication_cols t r t1 h
          · rw [if_neg hd] at h
            cases h with
            | refl => rfl

/-- C10 fails as stated: the condition string of a filter rule is
arbitrary Python under `eval(f"data.{condition}")`, and the
side-effecting condition `pop('id') is not None` removes the `id`
column in place before the caught indexing exception returns the
mutated table, so `apply_rules` returns a table missing a column. -/
theorem apply_rules_c10_counterexample :
    applyRules
      [Rule.mk (some "filter") (some (Cond.popCheck "id")) [] [] Option.none Option.none]
      ⟨["id", "email"], [[.int 1, .str "a@x.com"]]⟩
      = Except.ok ⟨["email"], [[.str "a@x.com"]]⟩ ∧
    (["email"] : List String) ≠ ["id", "email"] :=
  ⟨rfl, by decide⟩

/-- C10 (amended): for every input table and every rule list whose
filter rules carry pure predicate conditions (the spec's
column-versus-literal filter sub-language, with no side-effecting
expressions), the table returned by `apply_rules` has exactly the
column names of the input table — no rule variant and no unknown-rule
skip ever adds or removes a column. -/
theorem apply_rules_cols_c10 (rules : List Rule) :
    ∀ t t1 : Table, rules.all ruleFilterPure = true →
      applyRules rules t = .ok t1 → t1.cols = t.cols := by
  induction rules with
  | nil =>
    intro t t1 _ h
    cases h with
    | refl => rfl
  | cons r rs ih =>
    intro t t1 hall h
    rw [List.all_cons, Bool.and_eq_true] at hall
    show t1.cols = t.cols
    have hstep : (match applyRule t r with
        | Except.error e => Except.error e
        | Except.ok t2 => applyRules rs t2) = Except.ok t1 := h
    cases hr : applyRule t r with
    | error e => rw [hr] at hstep; exact absurd hstep (by simp)
    | ok t2 =>
      rw [hr] at hstep
      rw [ih t2 t1 hall.2 hstep]
      exact applyRule_cols t r t2 hall.1 hr

/-- Witness for C10 (amended): a predicate filter, a transform, a
deduplication and an unknown rule over a concrete two-column table. -/
theorem apply_rules_cols_c10_witness :
    ([Rule.mk (some "filter") (some (Cond.cmp "id" CmpOp.gt (Cell.int 0))) [] [] Option.none Option.none,
      Rule.mk (some "transform") Option.none [Transform.mk (some "email") (some "lowercase")] [] Option.none Option.none,
      Rule.mk (some "mystery") Option.none [] [] Option.none Option.none,
      Rule.mk (some "deduplicate") Option.none [] [] (some ["id"]) Option.none].all ruleFilterPure = true) ∧
    applyRules
      [Rule.mk (some "filter") (some (Cond.cmp "id" CmpOp.gt (Cell.int 0))) [] [] Option.none Option.none,
       Rule.mk (some "transform") Option.none [Transform.mk (some "email") (some "lowercase")] [] Option.none Option.none,
       Rule.mk (some "mystery") Option.none [] [] Option.none Option.none,
       Rule.mk (some "deduplicate") Option.none [] [] (some ["id"]) Option.none]
      ⟨["id", "email"], [[.int 1, .str "A@X.COM"], [.int 1, .str "A@X.COM"], [.int 3, .str "b@y.com"]]⟩
      = Except.ok ⟨["id", "email"], [[.int 1, .str "a@x.com"], [.int 3, .str "b@y.com"]]⟩ ∧
    (Table.mk ["id", "email"] [[.int 1, .str "a@x.com"], [.int 3, .str "b@y.com"]]).cols
      = (Table.mk ["id", "email"] [[.int 1, .str "A@X.COM"], [.int 1, .str "A@X.COM"], [.int 3, .str "b@y.com"]]).cols :=
  ⟨by decide, rfl,
   apply_rules_cols_c10
     [Rule.mk (some "filter") (some (Cond.cmp "id" CmpOp.gt (Cell.int 0))) [] [] Option.none Option.none,
      Rule.mk (some "transform") Option.none [Transform.mk (some "email") (some "lowercase")] [] Option.none Option.none,
      Rule.mk (some "mystery") Option.none [] [] Option.none Option.none,
      Rule.mk (some "deduplicate") Option.none [] [] (some ["id"]) Option.none]
     ⟨["id", "email"], [[.int 1, .str "A@X.COM"], [.int 1, .str "A@X.COM"], [.int 3, .str "b@y.com"]]⟩
     ⟨["id", "email"], [[.int 1, .str "a@x.com"], [.int 3, .str "b@y.com"]]⟩ (by decide) rfl⟩

/-- If the per-row predicate succeeds on every row, the mask evaluation
succeeds and selecting by the mask is exactly filtering by the rows on
which the predicate returned `true`. -/
theorem mapExcept_mask (f : List Cell → Except PyErr Bool)
    (rows : List (List Cell)) (hok : ∀ row ∈ rows, ∃ b, f row = .ok b) :
    ∃ mask, mapExcept f rows = .ok mask ∧
      maskSelect rows mask =
        rows.filter (fun row =>
          match f row with
          | .ok true => true
          | _ => false) := by
  induction rows with
  | nil => exact ⟨[], rfl, rfl⟩
  | cons r rs ih =>
    obtain ⟨b, hb⟩ := hok r (List.mem_cons_self r rs)
    obtain ⟨mask, hm, hsel⟩ := ih (fun row hrow => hok row (List.mem_cons_of_mem r hrow))
    refine ⟨b :: mask, ?_, ?_⟩
    · simp [mapExcept, hb, hm]
    · rw [List.filter_cons]
      cases b with
      | true => simp [maskSelect, hb, hsel]
      | false => simp [maskSelect, hb, hsel]

/-- C8: for every table and well-formed filter rule (a present condition
over an existing column whose predicate evaluates on every row),
`apply_filter` returns the table holding exactly the rows on which the
predicate is true, in their original relative order (the row index is
implicit in this model, so resetting it is the identity). -/
theorem apply_filter_c8 (t : Table) (r : Rule) (col : String)
    (op : CmpOp) (lit : Cell)
    (hc : r.condition = some (Cond.cmp col op lit))
    (hcol : t.cols.contains col = true)
    (hok : ∀ row ∈ t.rows, ∃ b, rowEval col op lit t.cols row = .ok b) :
    applyFilter t r =
      ⟨t.cols, t.rows.filter (fun row => rowKeeps col op lit t.cols row)⟩ := by
  obtain ⟨mask, hm, hsel⟩ := mapExcept_mask (rowEval col op lit t.cols) t.rows hok
  simp only [applyFilter, hc, evalCondM, hcol, if_true, hm]
  rw [show ({ t with rows := maskSelect t.rows mask } : Table)
      = ⟨t.cols, maskSelect t.rows mask⟩ from rfl]
  rw [hsel]
  rfl

/-- Witness for C8, the concrete instance of the claim: filtering with
`id > 2` on ids `[1,2,3,4,5]` keeps exactly the rows with ids
`[3,4,5]`. -/
theorem apply_filter_c8_witness :
    (Rule.mk (some "filter") (some (Cond.cmp "id" CmpOp.gt (Cell.int 2))) [] [] Option.none Option.none).condition
      = some (Cond.cmp "id" CmpOp.gt (Cell.int 2)) ∧
    (Table.mk ["id"] [[.int 1], [.int 2], [.int 3], [.int 4], [.int 5]]).cols.contains "id" = true ∧
    applyFilter ⟨["id"], [[.int 1], [.int 2], [.int 3], [.int 4], [.int 5]]⟩
      (Rule.mk (some "filter") (some (Cond.cmp "id" CmpOp.gt (Cell.int 2))) [] [] Option.none Option.none)
      = ⟨["id"], [[.int 3], [.int 4], [.int 5]]⟩ :=
  ⟨rfl, rfl,
   (apply_filter_c8 ⟨["id"], [[.int 1], [.int 2], [.int 3], [.int 4], [.int 5]]⟩
      (Rule.mk (some "filter") (some (Cond.cmp "id" CmpOp.gt (Cell.int 2))) [] [] Option.none Option.none)
      "id" CmpOp.gt (Cell.int 2) rfl rfl
      (by intro row hrow
          simp only [List.mem_cons, List.not_mem_nil, or_false] at hrow
          rcases hrow with rfl | rfl | rfl | rfl | rfl <;> exact ⟨_, rfl⟩)).trans
     (by decide)⟩

/-- When no keyword of an entry matches, the keyword scan of that entry
comes up empty. -/
theorem find_none_of_catMatches_false (low : String)
    (p : String × List String × DecisionAction × String)
    (h : catMatches low p = false) :
    p.2.1.find? (fun k => strIn k low) = Option.none := by
  rw [List.find?_eq_none]
  intro k hk hkt
  have : p.2.1.any (fun k => strIn k low) = true :=
    List.any_eq_true.mpr ⟨k, hk, hkt⟩
  rw [catMatches] at h
  rw [h] at this
  exact absurd this (by decide)

/-- The pattern scan on entries none of which matches returns the
`unknown` default. -/
theorem analyzeGo_no_match (low : String)
    (ps : List (String × List String × DecisionAction × String))
    (h : ∀ p ∈ ps, catMatches low p = false) :
    analyzeGo low ps = ⟨"unknown", .SEND_EMAIL, "medium", Option.none⟩ := by
  induction ps with
  | nil => rfl
  | cons p rest ih =>
    have hfind := find_none_of_catMatches_false low p (h p (List.mem_cons_self p rest))
    simp only [analyzeGo, hfind]
    exact ih (fun q hq => h q (List.mem_cons_of_mem p hq))

/-- The pattern scan returns the fields of the first matching entry. -/
theorem analyzeGo_first (low : String) :
    ∀ (ps : List (String × List String × DecisionAction × String))
      (i : Nat) (hi : i < ps.length),
      (∀ j (hj : j < ps.length), j < i → catMatches low (ps.get ⟨j, hj⟩) = false) →
      catMatches low (ps.get ⟨i, hi⟩) = true →
      (analyzeGo low ps).error_type = (ps.get ⟨i, hi⟩).1 ∧
      (analyzeGo low ps).action = (ps.get ⟨i, hi⟩).2.2.1 ∧
      (analyzeGo low ps).priority = (ps.get ⟨i, hi⟩).2.2.2 := by
  intro ps
  induction ps with
  | nil => intro i hi; exact absurd hi (by simp)
  | cons p rest ih =>
    intro i hi hearlier hmatch
    cases i with
    | zero =>
      have hmatch0 : catMatches low p = true := hmatch
      obtain ⟨k, hk, hkt⟩ := List.any_eq_true.mp hmatch0
      cases hfind : p.2.1.find? (fun k => strIn k low) with
      | none =>
        rw [List.find?_eq_none] at hfind
        exact absurd hkt (hfind k hk)
      | some k0 => simp [analyzeGo, hfind]
    | succ n =>
      have h0 : catMatches low p = false :=
        hearlier 0 (by simp) (Nat.succ_pos n)
      have hfind := find_none_of_catMatches_false low p h0
      have hrec : analyzeGo low (p :: rest) = analyzeGo low rest := by
        simp only [analyzeGo, hfind]
      rw [hrec]
      exact ih n (Nat.lt_of_succ_lt_succ hi)
        (fun j hj hjn =>
          hearlier (j + 1) (Nat.succ_lt_succ hj) (Nat.succ_lt_succ hjn))
        hmatch

/-- C4: the classifier checks the categories in fixed source-declaration
order (timeout, resource, permission, syntax, network, data) and returns
the first category any of whose keywords is a case-insensitive substring
of the message, checking no further categories; when no category
matches, it returns `category=unknown, action=SEND_EMAIL,
priority=medium, matched_keyword=null`. -/
theorem classifier_first_match_c4 (msg : String) :
    (∀ i (hi : i < errorPatterns.length),
      (∀ j (hj : j < errorPatterns.length), j < i →
        catMatches (pyLower msg) (errorPatterns.get ⟨j, hj⟩) = false) →
      catMatches (pyLower msg) (errorPatterns.get ⟨i, hi⟩) = true →
      (analyzeErrorPattern msg).error_type = (errorPatterns.get ⟨i, hi⟩).1 ∧
      (analyzeErrorPattern msg).action = (errorPatterns.get ⟨i, hi⟩).2.2.1 ∧
      (analyzeErrorPattern msg).priority = (errorPatterns.get ⟨i, hi⟩).2.2.2) ∧
    ((∀ p ∈ errorPatterns, catMatches (pyLower msg) p = false) →
      analyzeErrorPattern msg = ⟨"unknown", .SEND_EMAIL, "medium", Option.none⟩) :=
  ⟨fun i hi hearlier hmatch =>
    analyzeGo_first (pyLower msg) errorPatterns i hi hearlier hmatch,
   fun h => analyzeGo_no_match (pyLower msg) errorPatterns h⟩

/-- Witness for C4: a message matching only the first category by its
third keyword, and a message matching no category. -/
theorem classifier_first_match_c4_witness :
    catMatches (pyLower "Deadline exceeded while polling")
      (errorPatterns.get ⟨0, by decide⟩) = true ∧
    (analyzeErrorPattern "Deadline exceeded while polling").error_type = "timeout" ∧
    (analyzeErrorPattern "Deadline exceeded while polling").action = DecisionAction.RETRY ∧
    (analyzeErrorPattern "Deadline exceeded while polling").priority = "medium" ∧
    analyzeErrorPattern "all good" = ⟨"unknown", .SEND_EMAIL, "medium", Option.none⟩ := by
  have h := (classifier_first_match_c4 "Deadline exceeded while polling").1 0 (by decide)
    (fun j hj hlt => absurd hlt (Nat.not_lt_zero j)) (by decide)
  have h2 := (classifier_first_match_c4 "all good").2 (by decide)
  exact ⟨by decide, h.1, h.2.1, h.2.2, h2⟩

/-- C9 fails as stated: a message that contains "permission denied" but
also a keyword of the earlier timeout category is classified as timeout
with action RETRY, not SEND_EMAIL/permission. -/
theorem classify_c9_counterexample :
    strIn "permission denied" (pyLower "Timeout: permission denied") = true ∧
    (analyzeErrorPattern "Timeout: permission denied").error_type = "timeout" ∧
    (analyzeErrorPattern "Timeout: permission denied").action = DecisionAction.RETRY ∧
    DecisionAction.RETRY ≠ DecisionAction.SEND_EMAIL := by decide

/-- C9 (amended): for every message containing "permission denied"
case-insensitively and containing no keyword of the earlier-checked
timeout and resource categories, `classify` returns `action=SEND_EMAIL`
and `category=permission`. -/
theorem classify_permission_denied_c9 (msg : String)
    (h1 : strIn "timeout" (pyLower msg) = false)
    (h2 : strIn "timed out" (pyLower msg) = false)
    (h3 : strIn "deadline exceeded" (pyLower msg) = false)
    (h4 : strIn "out of memory" (pyLower msg) = false)
    (h5 : strIn "disk space" (pyLower msg) = false)
    (h6 : strIn "resource exhausted" (pyLower msg) = false)
    (h7 : strIn "insufficient resources" (pyLower msg) = false)
    (hp : strIn "permission denied" (pyLower msg) = true) :
    (analyzeErrorPattern msg).action = DecisionAction.SEND_EMAIL ∧
    (analyzeErrorPattern msg).error_type = "permission" := by
  have : analyzeErrorPattern msg =
      ⟨"permission", .SEND_EMAIL, "critical", some "permission denied"⟩ := by
    simp only [analyzeErrorPattern, errorPatterns, analyzeGo, List.find?,
      h1, h2, h3, h4, h5, h6, h7, hp]
  rw [this]
  exact ⟨rfl, rfl⟩

/-- Witness for C9 (amended) at a concrete message. -/
theorem classify_permission_denied_c9_witness :
    strIn "permission denied" (pyLower "ERROR: Permission Denied.") = true ∧
    (analyzeErrorPattern "ERROR: Permission Denied.").action = DecisionAction.SEND_EMAIL ∧
    (analyzeErrorPattern "ERROR: Permission Denied.").error_type = "permission" :=
  ⟨by decide,
   (classify_permission_denied_c9 "ERROR: Permission Denied." (by decide) (by decide)
     (by decide) (by decide) (by decide) (by decide) (by decide) (by decide)).1,
   (classify_permission_denied_c9 "ERROR: Permission Denied." (by decide) (by decide)
     (by decide) (by decide) (by decide) (by decide) (by decide) (by decide)).2⟩

/-- C1 fails as stated: at `attempt_number = max_retries = 3`, an
external analysis recommending `escalate` yields a decision whose action
is ESCALATE, not SEND_EMAIL — the retry-budget override only rewrites
RETRY and RETRY_WITH_NEW_PARAMS. -/
theorem make_decision_c1_counterexample :
    ((3 : Int) ≤ 3) ∧
    (makeDecision 3 "timeout" [("attempt_number", Val.int 3)]
        (some [("recommendation", Val.str "escalate")])).map Decision.action
      = Except.ok DecisionAction.ESCALATE ∧
    DecisionAction.ESCALATE ≠ DecisionAction.SEND_EMAIL :=
  ⟨by decide, rfl, by decide⟩

/-- C1 (amended): whenever `make_decision` returns on a context whose
`attempt_number` is an integer at least `max_retries`, the returned
action is never RETRY nor RETRY_WITH_NEW_PARAMS: a retry action is
overridden to SEND_EMAIL, while an external ESCALATE or IGNORE
recommendation is returned unchanged. -/
theorem make_decision_retry_budget_c1 (maxR : Nat) (msg : String)
    (ctx : List (String × Val)) (llm : Option (List (String × Val)))
    (n : Int) (d : Decision)
    (hA : lookup "attempt_number" ctx = some (Val.int n))
    (hge : (maxR : Int) ≤ n)
    (h : makeDecision maxR msg ctx llm = .ok d) :
    d.action ≠ DecisionAction.RETRY ∧
    d.action ≠ DecisionAction.RETRY_WITH_NEW_PARAMS := by
  simp only [makeDecision] at h
  cases hb : (match llm with
      | some a =>
        if a.isEmpty then Except.ok (buildDecision (analyzeErrorPattern msg))
        else combineAnalyses (analyzeErrorPattern msg) a
      | Option.none => Except.ok (buildDecision (analyzeErrorPattern msg))) with
  | error e => rw [hb] at h; exact absurd h (by simp)
  | ok d0 =>
    rw [hb] at h
    simp only [hA, Option.getD_some, valGeNat] at h
    rw [decide_eq_true hge] at h
    simp only [Bool.true_and] at h
    cases hcond : (d0.action == DecisionAction.RETRY
        || d0.action == DecisionAction.RETRY_WITH_NEW_PARAMS) with
    | true =>
      rw [hcond] at h
      rw [if_pos rfl] at h
      cases h with
      | refl => exact ⟨by simp, by simp⟩
    | false =>
      rw [hcond] at h
      rw [if_neg (by simp)] at h
      cases h with
      | refl =>
        simp only [Bool.or_eq_false_iff, beq_eq_false_iff_ne, ne_eq] at hcond
        exact hcond

/-- Witness for C1 (amended) at `attempt_number = max_retries = 3` with
no external analysis. -/
theorem make_decision_retry_budget_c1_witness :
    lookup "attempt_number" [("attempt_number", Val.int 3)] = some (Val.int 3) ∧
    ((3 : Nat) : Int) ≤ 3 ∧
    ((Decision.mk DecisionAction.SEND_EMAIL (Val.str "unknown") Val.none
        (Val.str "Matched pattern: None") "medium" Val.none (Val.str "DevOps")
        (Val.int 3)).action ≠ DecisionAction.RETRY ∧
     (Decision.mk DecisionAction.SEND_EMAIL (Val.str "unknown") Val.none
        (Val.str "Matched pattern: None") "medium" Val.none (Val.str "DevOps")
        (Val.int 3)).action ≠ DecisionAction.RETRY_WITH_NEW_PARAMS) :=
  ⟨rfl, by decide,
   make_decision_retry_budget_c1 3 "mystery failure" [("attempt_number", Val.int 3)]
     Option.none 3 _ rfl (by decide) rfl⟩

/-- C2: the code can raise.  With a truthy non-string `recommendation`
(here the integer 1), `_combine_analyses` evaluates
`llm_analysis["recommendation"].upper()` and raises `AttributeError`,
which `except (KeyError, ValueError)` does not catch, so `make_decision`
propagates it instead of degrading to the pattern-only decision. -/
theorem make_decision_c2_code_bug :
    makeDecision 3 "boom" [("attempt_number", Val.int 1)]
      (some [("recommendation", Val.int 1)])
    = Except.error ⟨"AttributeError", "object has no attribute upper"⟩ := rfl

/-- C5 fails as stated: an external `error_category` that is present but
empty is kept verbatim (the code falls back only on an absent key, not
on an empty value), and `root_cause` falls back to the fixed string
"Unknown", not to any classifier-match field, even though the classifier
matched the keyword "timeout". -/
theorem combine_c5_counterexample :
    (combineAnalyses (analyzeErrorPattern "timeout")
        [("error_category", Val.str "")]).map Decision.error_category
      = Except.ok (Val.str "") ∧
    (combineAnalyses (analyzeErrorPattern "timeout")
        [("error_category", Val.str "")]).map Decision.root_cause
      = Except.ok (Val.str "Unknown") ∧
    (analyzeErrorPattern "timeout").error_type = "timeout" ∧
    (analyzeErrorPattern "timeout").matched_keyword = some "timeout" ∧
    ("" : String) ≠ "timeout" :=
  ⟨rfl, rfl, rfl, rfl, by decide⟩

/-- C5 (amended): when the combiner merges an external analysis with a
classifier result, each remaining decision field takes the external
value whenever that key is present — even when its value is empty — and
falls back only on an absent key; the fallbacks are the classifier
category for `error_category`, the matched keyword (or "Pattern
matched") for `reason`, the classifier priority for the severity, the
fixed "Unknown" for `root_cause`, `None` for `suggested_params` and
"DevOps" for `recipient_team`; the priority is the lower-cased severity
string. -/
theorem combine_fields_c5 (pattern_result : PatternMatch)
    (a : List (String × Val)) (d : Decision)
    (h : combineAnalyses pattern_result a = .ok d) :
    d.error_category = getD "error_category" a (.str pattern_result.error_type) ∧
    d.root_cause = getD "root_cause" a (.str "Unknown") ∧
    d.reason = getD "reason" a
      (.str (match pattern_result.matched_keyword with
             | some k => if k = "" then "Pattern matched" else k
             | Option.none => "Pattern matched")) ∧
    d.suggested_params = (lookup "suggested_params" a).getD .none ∧
    d.recipient_team = getD "recipient_team" a (.str "DevOps") ∧
    ∃ s, getD "severity" a (.str pattern_result.priority) = Val.str s ∧
      d.priority = pyLower s := by
  simp only [combineAnalyses] at h
  cases hrec : (if truthy ((lookup "recommendation" a).getD Val.none) then
      match (lookup "recommendation" a).getD Val.none with
      | Val.str s =>
        Except.ok ((parseAction (pyUpper s)).getD pattern_result.action)
      | _ =>
        Except.error (⟨"AttributeError", "object has no attribute upper"⟩ : PyErr)
    else Except.ok pattern_result.action) with
  | error e => rw [hrec] at h; exact absurd h (by simp)
  | ok action =>
    rw [hrec] at h
    cases hsev : getD "severity" a (.str pattern_result.priority) with
    | str s =>
      rw [hsev] at h
      cases h with
      | refl => exact ⟨rfl, rfl, rfl, rfl, rfl, s, rfl, rfl⟩
    | int m => rw [hsev] at h; exact absurd h (by simp)
    | bool b => rw [hsev] at h; exact absurd h (by simp)
    | list xs => rw [hsev] at h; exact absurd h (by simp)
    | dict kvs => rw [hsev] at h; exact absurd h (by simp)
    | none => rw [hsev] at h; exact absurd h (by simp)

/-- Witness for C5 (amended): a concrete merge where the severity is
present and the root cause is present, exercising both the taken and
fallback sides. -/
theorem combine_fields_c5_witness :
    combineAnalyses ⟨"timeout", DecisionAction.RETRY, "medium", some "timeout"⟩
      [("severity", Val.str "HIGH"), ("root_cause", Val.str "worker OOM")]
      = Except.ok (Decision.mk DecisionAction.RETRY (Val.str "timeout")
          (Val.str "worker OOM") (Val.str "timeout") "high" Val.none
          (Val.str "DevOps") Val.none) ∧
    (Decision.mk DecisionAction.RETRY (Val.str "timeout") (Val.str "worker OOM")
        (Val.str "timeout") "high" Val.none (Val.str "DevOps") Val.none).error_category
      = getD "error_category"
          [("severity", Val.str "HIGH"), ("root_cause", Val.str "worker OOM")]
          (Val.str "timeout") ∧
    ∃ s, getD "severity"
          [("severity", Val.str "HIGH"), ("root_cause", Val.str "worker OOM")]
          (Val.str "medium") = Val.str s ∧
      (Decision.mk DecisionAction.RETRY (Val.str "timeout") (Val.str "worker OOM")
        (Val.str "timeout") "high" Val.none (Val.str "DevOps") Val.none).priority
        = pyLower s :=
  ⟨rfl,
   (combine_fields_c5 ⟨"timeout", DecisionAction.RETRY, "medium", some "timeout"⟩
     [("severity", Val.str "HIGH"), ("root_cause", Val.str "worker OOM")] _ rfl).1,
   (combine_fields_c5 ⟨"timeout", DecisionAction.RETRY, "medium", some "timeout"⟩
     [("severity", Val.str "HIGH"), ("root_cause", Val.str "worker OOM")] _ rfl).2.2.2.2.2⟩

/-- C3 fails as stated: with action RETRY_WITH_NEW_PARAMS and no
suggested parameters, the `extract_parameters_for_retry` collaborator
call sits outside the guarded helper, so its exception escapes
`_execute_action` instead of being converted to a result. -/
theorem execute_action_c3_counterexample :
    executeAction
      ⟨Except.ok Val.none, fun _ => Except.ok [],
       Except.error ⟨"RuntimeError", "llm unavailable"⟩,
       Except.ok [], Except.ok true⟩
      (Decision.mk DecisionAction.RETRY_WITH_NEW_PARAMS Val.none Val.none
        Val.none "high" Val.none (Val.str "DevOps") Val.none)
      1 2 []
    = Except.error ⟨"RuntimeError", "llm unavailable"⟩ := rfl

/-- C3 (amended): for every decision and every behaviour of the
collaborators — excepting only a raising suggested-params extraction
call, which sits before the guarded helper and propagates —
`_execute_action` returns a result rather than propagating, and
whenever a collaborator call made inside the branch raises, the
returned status ends in `_error` or `_failed`.  The falsy
`suggested_params` path with a succeeding extraction call is covered:
a later cancel/submit exception there is still isolated as
`retry_error`. -/
theorem execute_action_isolates_c3 (c : Collab) (d : Decision)
    (jobId runId : Int) (ctx : List (String × Val))
    (h : d.action ≠ DecisionAction.RETRY_WITH_NEW_PARAMS
      ∨ truthy d.suggested_params = true
      ∨ ∃ p, c.extractParams = Except.ok p) :
    ∃ r, executeAction c d jobId runId ctx = .ok r ∧
      (branchRaised c d ctx = true →
        ∃ s, lookup "status" r = some (Val.str s) ∧
          (strEnds s "_error" || strEnds s "_failed") = true) := by
  cases hact : d.action with
  | RETRY =>
    refine ⟨retryJob c (getD "parameters" ctx .none), by simp [executeAction, hact], ?_⟩
    intro hbr
    cases hcan : c.cancelRun with
    | error e => exact ⟨"retry_error", by simp [retryJob, hcan, lookup], by decide⟩
    | ok v =>
      cases hsub : c.submitRun (getD "parameters" ctx .none) with
      | error e => exact ⟨"retry_error", by simp [retryJob, hcan, hsub, lookup], by decide⟩
      | ok res =>
        exfalso
        simp only [branchRaised, hact, hcan, hsub] at hbr
        exact absurd hbr (by decide)
  | RETRY_WITH_NEW_PARAMS =>
    cases htr : truthy d.suggested_params with
    | true =>
      refine ⟨retryJobWithParams c d.suggested_params,
        by simp [executeAction, hact, htr], ?_⟩
      intro hbr
      cases hcan : c.cancelRun with
      | error e =>
        exact ⟨"retry_error", by simp [retryJobWithParams, hcan, lookup], by decide⟩
      | ok v =>
        cases hsub : c.submitRun d.suggested_params with
        | error e =>
          exact ⟨"retry_error", by simp [retryJobWithParams, hcan, hsub, lookup], by decide⟩
        | ok res =>
          exfalso
          simp [branchRaised, hact, htr, hcan, hsub] at hbr
    | false =>
      obtain ⟨p, hp⟩ : ∃ p, c.extractParams = Except.ok p := by
        rcases h with hne | ht | hex
        · exact absurd hact hne
        · rw [htr] at ht; exact absurd ht (by decide)
        · exact hex
      refine ⟨retryJobWithParams c p,
        by simp [executeAction, hact, htr, hp], ?_⟩
      intro hbr
      cases hcan : c.cancelRun with
      | error e =>
        exact ⟨"retry_error", by simp [retryJobWithParams, hcan, lookup], by decide⟩
      | ok v =>
        cases hsub : c.submitRun p with
        | error e =>
          exact ⟨"retry_error", by simp [retryJobWithParams, hcan, hsub, lookup], by decide⟩
        | ok res =>
          exfalso
          simp [branchRaised, hact, htr, hp, hcan, hsub] at hbr
  | SEND_EMAIL =>
    refine ⟨sendErrorNotification c d, by simp [executeAction, hact], ?_⟩
    intro hbr
    cases hgen : c.generateEmail with
    | error e =>
      exact ⟨"notification_error", by simp [sendErrorNotification, hgen, lookup], by decide⟩
    | ok content =>
      cases hsend : c.sendNotification with
      | error e =>
        exact ⟨"notification_error",
          by simp [sendErrorNotification, hgen, hsend, lookup], by decide⟩
      | ok sent =>
        exfalso
        simp only [branchRaised, hact, hgen, hsend] at hbr
        exact absurd hbr (by decide)
  | ESCALATE =>
    refine ⟨escalateIssue d jobId runId, by simp [executeAction, hact], ?_⟩
    intro hbr
    exfalso
    simp only [branchRaised, hact] at hbr
    exact absurd hbr (by decide)
  | IGNORE =>
    refine ⟨[("status", .str "unknown_action")], by simp [executeAction, hact], ?_⟩
    intro hbr
    exfalso
    simp only [branchRaised, hact] at hbr
    exact absurd hbr (by decide)

/-- Witness for C3 (amended), exercising the falsy-`suggested_params`
RETRY_WITH_NEW_PARAMS path: the extraction call succeeds, the cancel
call raises, and the branch still isolates the failure. -/
theorem execute_action_isolates_c3_witness :
    ((Decision.mk DecisionAction.RETRY_WITH_NEW_PARAMS Val.none Val.none
        Val.none "medium" Val.none (Val.str "DevOps") Val.none).action
      ≠ DecisionAction.RETRY_WITH_NEW_PARAMS
      ∨ truthy (Decision.mk DecisionAction.RETRY_WITH_NEW_PARAMS Val.none
          Val.none Val.none "medium" Val.none (Val.str "DevOps")
          Val.none).suggested_params = true
      ∨ ∃ p, (Collab.mk (Except.error ⟨"ConnectionError", "cancel failed"⟩)
          (fun _ => Except.ok []) (Except.ok (Val.dict []))
          (Except.ok []) (Except.ok true)).extractParams = Except.ok p) ∧
    (∃ r, executeAction
        ⟨Except.error ⟨"ConnectionError", "cancel failed"⟩,
         fun _ => Except.ok [], Except.ok (Val.dict []), Except.ok [], Except.ok true⟩
        (Decision.mk DecisionAction.RETRY_WITH_NEW_PARAMS Val.none Val.none
          Val.none "medium" Val.none (Val.str "DevOps") Val.none)
        1 2 []
        = .ok r ∧
      (branchRaised
          ⟨Except.error ⟨"ConnectionError", "cancel failed"⟩,
           fun _ => Except.ok [], Except.ok (Val.dict []), Except.ok [], Except.ok true⟩
          (Decision.mk DecisionAction.RETRY_WITH_NEW_PARAMS Val.none Val.none
            Val.none "medium" Val.none (Val.str "DevOps") Val.none)
          [] = true →
        ∃ s, lookup "status" r = some (Val.str s) ∧
          (strEnds s "_error" || strEnds s "_failed") = true)) :=
  ⟨Or.inr (Or.inr ⟨Val.dict [], rfl⟩),
   execute_action_isolates_c3
     ⟨Except.error ⟨"ConnectionError", "cancel failed"⟩,
      fun _ => Except.ok [], Except.ok (Val.dict []), Except.ok [], Except.ok true⟩
     (Decision.mk DecisionAction.RETRY_WITH_NEW_PARAMS Val.none Val.none
       Val.none "medium" Val.none (Val.str "DevOps") Val.none)
     1 2 [] (Or.inr (Or.inr ⟨Val.dict [], rfl⟩))⟩

end Spec2Proof
